import Mathlib

/-!
Verification development for the NDLP Emotional Value Core (EVC).

Shallow embedding of the Python sources over the reals:
  - `src/project_jarvis/config.py`   : configuration constants
  - `src/project_jarvis/hormones.py` : `HormoneSystem`
  - `src/project_jarvis/emotions.py` : `EmotionMapper`
  - `src/project_jarvis/evc_core.py` : `EVCEngine`
  - `src/backend/user_emotion_tracker.py` : `UserEmotionTracker`
  - `src/backend/groq_bridge.py`     : `GroqBridge.analyze_message`
  - `src/backend/main.py`            : the per-turn chat pipeline slice

Python floats are modelled as real numbers; `numpy` elementwise operations
become pointwise operations on `Fin 8 → ℝ`; `np.clip` and Python `round`
are modelled explicitly below.
-/

namespace NDLP

open Classical
open scoped BigOperators

noncomputable section

abbrev Vec8 := Fin 8 → ℝ

/-- `np.clip(x, lo, hi) = np.minimum(np.maximum(x, lo), hi)`. -/
def pyClip (x lo hi : ℝ) : ℝ := min (max x lo) hi

/-- Round to the nearest integer, ties to even — the rounding used by Python
`round` and by `numpy` on floats. -/
def roundHalfEven (y : ℝ) : ℤ :=
  if Int.fract y < 1 / 2 then ⌊y⌋
  else if 1 / 2 < Int.fract y then ⌊y⌋ + 1
  else if Even ⌊y⌋ then ⌊y⌋ else ⌊y⌋ + 1

/-- Python `round(x, n)`. -/
def roundPy (x : ℝ) (n : ℕ) : ℝ := (roundHalfEven (x * 10 ^ n) : ℝ) / 10 ^ n

/-! ## Configuration constants (`config.py`) -/

def HORMONE_NAMES : Fin 8 → String := fun i => match i with
  | 0 => "Dopamine" | 1 => "Serotonin" | 2 => "Oxytocin" | 3 => "Endorphin"
  | 4 => "Cortisol" | 5 => "Adrenaline" | 6 => "GABA" | 7 => "Norepinephrine"

def EMOTION_NAMES : Fin 8 → String := fun i => match i with
  | 0 => "Joy" | 1 => "Serenity" | 2 => "Love" | 3 => "Excitement"
  | 4 => "Sadness" | 5 => "Fear" | 6 => "Anger" | 7 => "Surprise"

def H_BASELINE : Vec8 := fun i => match i with
  | 0 => 0.50 | 1 => 0.60 | 2 => 0.40 | 3 => 0.30
  | 4 => 0.30 | 5 => 0.20 | 6 => 0.50 | 7 => 0.30

def HALF_LIFE_TURNS : Vec8 := fun i => match i with
  | 0 => 0.4 | 1 => 6.0 | 2 => 0.8 | 3 => 4.0
  | 4 => 15.0 | 5 => 0.5 | 6 => 6.0 | 7 => 0.5

def HALF_LIFE_MIN_FACTOR : ℝ := 0.65
def HALF_LIFE_MAX_FACTOR : ℝ := 2.00

def HALF_LIFE_STRESS_SENS : Vec8 := fun i => match i with
  | 0 => -0.15 | 1 => -0.10 | 2 => -0.20 | 3 => 0.05
  | 4 => 0.65 | 5 => 0.45 | 6 => -0.05 | 7 => 0.35

def HALF_LIFE_ACTIVATION_SENS : Vec8 := fun i => match i with
  | 0 => 0.25 | 1 => 0.20 | 2 => 0.20 | 3 => 0.20
  | 4 => 0.70 | 5 => 0.40 | 6 => 0.20 | 7 => 0.35

def P_POS : Vec8 := fun i => match i with
  | 0 => 0.80 | 1 => 0.50 | 2 => 0.60 | 3 => 0.40
  | 4 => -0.30 | 5 => 0.10 | 6 => 0.30 | 7 => 0.10

def P_NEG : Vec8 := fun i => match i with
  | 0 => 0.60 | 1 => 0.50 | 2 => 0.40 | 3 => 0.20
  | 4 => -0.80 | 5 => -0.60 | 6 => 0.40 | 7 => -0.50

def H_INTERACT_row0 : Vec8 := fun j => match j with
  | 0 => 0.00 | 1 => 0.05 | 2 => 0.03 | 3 => 0.02 | 4 => -0.04 | 5 => 0.02 | 6 => 0.00 | 7 => 0.03

def H_INTERACT_row1 : Vec8 := fun j => match j with
  | 0 => 0.03 | 1 => 0.00 | 2 => 0.04 | 3 => 0.03 | 4 => -0.08 | 5 => -0.02 | 6 => 0.05 | 7 => -0.02

def H_INTERACT_row2 : Vec8 := fun j => match j with
  | 0 => 0.02 | 1 => 0.03 | 2 => 0.00 | 3 => 0.02 | 4 => -0.06 | 5 => -0.03 | 6 => 0.03 | 7 => -0.02

def H_INTERACT_row3 : Vec8 := fun j => match j with
  | 0 => 0.03 | 1 => 0.04 | 2 => 0.03 | 3 => 0.00 | 4 => -0.03 | 5 => 0.00 | 6 => 0.02 | 7 => 0.00

def H_INTERACT_row4 : Vec8 := fun j => match j with
  | 0 => -0.02 | 1 => -0.03 | 2 => -0.06 | 3 => -0.04 | 4 => 0.00 | 5 => 0.04 | 6 => -0.05 | 7 => 0.03

def H_INTERACT_row5 : Vec8 := fun j => match j with
  | 0 => 0.02 | 1 => -0.02 | 2 => -0.03 | 3 => 0.00 | 4 => 0.05 | 5 => 0.00 | 6 => -0.08 | 7 => 0.05

def H_INTERACT_row6 : Vec8 := fun j => match j with
  | 0 => 0.02 | 1 => 0.04 | 2 => 0.03 | 3 => 0.03 | 4 => -0.04 | 5 => -0.03 | 6 => 0.00 | 7 => -0.03

def H_INTERACT_row7 : Vec8 := fun j => match j with
  | 0 => 0.03 | 1 => -0.02 | 2 => -0.02 | 3 => 0.00 | 4 => 0.04 | 5 => 0.05 | 6 => -0.06 | 7 => 0.00

def H_INTERACT : Fin 8 → Vec8 := fun i => match i with
  | 0 => H_INTERACT_row0 | 1 => H_INTERACT_row1 | 2 => H_INTERACT_row2 | 3 => H_INTERACT_row3
  | 4 => H_INTERACT_row4 | 5 => H_INTERACT_row5 | 6 => H_INTERACT_row6 | 7 => H_INTERACT_row7

def INTERACTION_STRENGTH : ℝ := 0.15
def NEGATIVITY_BIAS : ℝ := 1.5

def W_row0 : Vec8 := fun j => match j with
  | 0 => 0.35 | 1 => 0.20 | 2 => 0.15 | 3 => 0.20 | 4 => -0.15 | 5 => 0.00 | 6 => 0.10 | 7 => 0.00

def W_row1 : Vec8 := fun j => match j with
  | 0 => 0.05 | 1 => 0.35 | 2 => 0.10 | 3 => 0.15 | 4 => -0.20 | 5 => -0.15 | 6 => 0.30 | 7 => -0.10

def W_row2 : Vec8 := fun j => match j with
  | 0 => 0.10 | 1 => 0.15 | 2 => 0.40 | 3 => 0.10 | 4 => -0.10 | 5 => -0.05 | 6 => 0.10 | 7 => 0.00

def W_row3 : Vec8 := fun j => match j with
  | 0 => 0.25 | 1 => -0.05 | 2 => 0.05 | 3 => 0.15 | 4 => 0.00 | 5 => 0.30 | 6 => -0.15 | 7 => 0.20

def W_row4 : Vec8 := fun j => match j with
  | 0 => -0.20 | 1 => -0.40 | 2 => -0.15 | 3 => -0.15 | 4 => 0.45 | 5 => 0.05 | 6 => -0.20 | 7 => 0.05

def W_row5 : Vec8 := fun j => match j with
  | 0 => -0.10 | 1 => -0.15 | 2 => -0.10 | 3 => -0.10 | 4 => 0.35 | 5 => 0.25 | 6 => -0.20 | 7 => 0.25

def W_row6 : Vec8 := fun j => match j with
  | 0 => -0.10 | 1 => -0.20 | 2 => -0.15 | 3 => -0.05 | 4 => 0.25 | 5 => 0.20 | 6 => -0.25 | 7 => 0.30

def W_row7 : Vec8 := fun j => match j with
  | 0 => 0.10 | 1 => -0.10 | 2 => 0.00 | 3 => 0.05 | 4 => 0.10 | 5 => 0.30 | 6 => -0.20 | 7 => 0.25

def W_MATRIX : Fin 8 → Vec8 := fun i => match i with
  | 0 => W_row0 | 1 => W_row1 | 2 => W_row2 | 3 => W_row3
  | 4 => W_row4 | 5 => W_row5 | 6 => W_row6 | 7 => W_row7

def RECOVERY_RATE : ℝ := 0.10
def STIMULUS_GAIN : ℝ := 0.60
def SOFT_CLAMP_SHARPNESS : ℝ := 2.8

def PERSONALITY_DEFAULT : Vec8 := fun _ => 1.0

def PERSONALITY_SENSITIVE : Vec8 := fun i => match i with
  | 0 => 1.5 | 1 => 0.8 | 2 => 1.3 | 3 => 1.0
  | 4 => 1.5 | 5 => 1.3 | 6 => 0.7 | 7 => 1.2

def MEMORY_BETA : ℝ := 0.90
def TRUST_GAMMA : ℝ := 0.06
def TRUST_LAMBDA : ℝ := 0.05
def TRUST_INITIAL : ℝ := 0.5
def TRUST_MIN : ℝ := 0.05
def TRUST_MAX : ℝ := 0.95
def TRUST_UP_EXP : ℝ := 1.2
def TRUST_DOWN_EXP : ℝ := 0.8

/-! ## `HormoneSystem` (`hormones.py`) -/

structure HormoneSystem where
  H : Vec8
  H_prev : Vec8
  K : Vec8
  history : List Vec8

/-- `HormoneSystem.__init__`. -/
def HormoneSystem.init (personality : Option Vec8) : HormoneSystem :=
  { H := H_BASELINE
    H_prev := H_BASELINE
    K := personality.getD PERSONALITY_DEFAULT
    history := [H_BASELINE] }

/-- `HormoneSystem.calculate_stimulus`. -/
def calculate_stimulus (S D C : ℝ) : Vec8 :=
  fun i => P_POS i * S * C - P_NEG i * (D * NEGATIVITY_BIAS) * C

/-- `HormoneSystem._compute_decay_factor`. -/
def compute_decay_factor (H : Vec8) (D C delta_t : ℝ) : Vec8 :=
  let stress_level := pyClip (D * C) 0 1.5
  fun i =>
    let activation := |H i - H_BASELINE i|
    let half_life_factor :=
      pyClip (1 + HALF_LIFE_STRESS_SENS i * stress_level
                  + HALF_LIFE_ACTIVATION_SENS i * activation)
        HALF_LIFE_MIN_FACTOR HALF_LIFE_MAX_FACTOR
    let effective_half_life := HALF_LIFE_TURNS i * half_life_factor
    Real.exp (-(Real.log 2 / max effective_half_life 1e-6) * delta_t)

/-- `HormoneSystem._soft_clip01` (pointwise). -/
def soft_clip01 (x : ℝ) : ℝ :=
  1 / (1 + Real.exp (-((x - 0.5) * SOFT_CLAMP_SHARPNESS)))

/-- `HormoneSystem.update`. -/
def HormoneSystem.update (hs : HormoneSystem) (S D C delta_t : ℝ) : HormoneSystem :=
  let stimulus := calculate_stimulus S D C
  let decay_factor := compute_decay_factor hs.H D C delta_t
  let H1 : Vec8 := fun i =>
    hs.H i * decay_factor i
      + STIMULUS_GAIN * (hs.K i * stimulus i)
      + RECOVERY_RATE * (H_BASELINE i - hs.H i)
  let H2 : Vec8 := fun i => H1 i + INTERACTION_STRENGTH * (∑ j, H_INTERACT i j * H1 j)
  let H3 : Vec8 := fun i => soft_clip01 (H2 i)
  { H := H3, H_prev := hs.H, K := hs.K, history := hs.history ++ [H3] }

/-- `HormoneSystem.get_delta`. -/
def HormoneSystem.get_delta (hs : HormoneSystem) : Vec8 :=
  fun i => hs.H i - hs.H_prev i

/-- `HormoneSystem.get_state_dict` (values keyed positionally by hormone name). -/
def HormoneSystem.get_state_dict (hs : HormoneSystem) : Vec8 :=
  fun i => roundPy (hs.H i) 4

/-! ## `EmotionMapper` (`emotions.py`) -/

structure EmotionMapper where
  emotions_raw : Vec8
  emotions_normalized : Vec8
  history : List Vec8

/-- `EmotionMapper.__init__`. -/
def EmotionMapper.init : EmotionMapper :=
  { emotions_raw := fun _ => 0
    emotions_normalized := fun _ => 0
    history := [] }

/-- `EmotionMapper.compute`. -/
def EmotionMapper.compute (em : EmotionMapper) (H : Vec8) : EmotionMapper :=
  let raw : Vec8 := fun i => max 0 (∑ j, W_MATRIX i j * H j)
  let total := ∑ i, raw i
  let normalized : Vec8 :=
    if 0 < total then fun i => raw i / total else fun _ => 1 / 8
  { emotions_raw := raw
    emotions_normalized := normalized
    history := em.history ++ [normalized] }

/-- `np.argmax`: index of the maximum, first (lowest) index on ties. -/
def argmax8 (E : Vec8) : Fin 8 :=
  List.foldl (fun best i => if E best < E i then i else best) 0 (List.finRange 8)

/-- `EmotionMapper.get_dominant`. -/
def EmotionMapper.get_dominant (em : EmotionMapper) : String × ℝ :=
  (EMOTION_NAMES (argmax8 em.emotions_normalized),
   em.emotions_normalized (argmax8 em.emotions_normalized))

/-- `np.argsort(E)` for an 8-element array.  For arrays this small `numpy`
always runs its insertion sort, which is a stable ascending sort of the
indices by value; modelled with `List.insertionSort` over the index list. -/
def argsortAsc (E : Vec8) : List (Fin 8) :=
  List.insertionSort (fun i j => E i ≤ E j) [0, 1, 2, 3, 4, 5, 6, 7]

/-- The index list produced by `np.argsort(E)[::-1][:n]` in `get_top_n`. -/
def topIndices (E : Vec8) (n : ℕ) : List (Fin 8) :=
  (argsortAsc E).reverse.take n

/-- `EmotionMapper.get_top_n`. -/
def EmotionMapper.get_top_n (em : EmotionMapper) (n : ℕ) : List (String × ℝ) :=
  (topIndices em.emotions_normalized n).map
    (fun i => (EMOTION_NAMES i, roundPy (em.emotions_normalized i) 4))

/-- Zero-padding of the fractional part in Python float formatting. -/
def padFrac2 (k : ℤ) : String := if k < 10 then "0" ++ toString k else toString k

/-- Python formatting of a (nonnegative) score with two decimals. -/
def fmt2 (x : ℝ) : String :=
  let m := roundHalfEven (x * 100)
  toString (m / 100) ++ "." ++ padFrac2 (m % 100)

/-- `EmotionMapper.get_emotion_label`. -/
def EmotionMapper.get_emotion_label (em : EmotionMapper) : String :=
  String.intercalate " + "
    ((em.get_top_n 3).map (fun p => p.1 ++ "(" ++ fmt2 p.2 ++ ")"))

/-- `EmotionMapper.get_state_dict` (values keyed positionally by emotion name). -/
def EmotionMapper.get_state_dict (em : EmotionMapper) : Vec8 :=
  fun i => roundPy (em.emotions_normalized i) 4

/-! ## `EVCEngine` (`evc_core.py`) -/

/-- The per-turn result record built by `EVCEngine.process_turn`.
Dictionaries keyed by hormone/emotion names are stored positionally. -/
structure TurnResult where
  turn : ℕ
  message : String
  delta_t : ℝ
  inputS : ℝ
  inputD : ℝ
  inputC : ℝ
  hormones : Vec8
  hormone_delta : Vec8
  emotions : Vec8
  dominant_emotion : String
  dominant_score : ℝ
  emotion_blend : String
  top3_emotions : List (String × ℝ)
  memory : Vec8
  trust : ℝ
  output_intensity : ℝ

structure EVCEngine where
  name : String
  hormones : HormoneSystem
  emotions : EmotionMapper
  memory : Vec8
  trust : ℝ
  turn : ℕ
  turn_log : List TurnResult

/-- `EVCEngine.__init__`. -/
def EVCEngine.init (personality : Option Vec8) (name : String) : EVCEngine :=
  { name := name
    hormones := HormoneSystem.init personality
    emotions := EmotionMapper.init
    memory := H_BASELINE
    trust := TRUST_INITIAL
    turn := 0
    turn_log := [] }

/-- `EVCEngine.process_turn`; returns the mutated engine and the result record. -/
def EVCEngine.process_turn (e : EVCEngine) (S D C delta_t : ℝ) (message : String) :
    EVCEngine × TurnResult :=
  let turn := e.turn + 1
  let hs := e.hormones.update S D C delta_t
  let H := hs.H
  let delta_H := hs.get_delta
  let em := e.emotions.compute H
  let dominant := em.get_dominant
  let top3 := em.get_top_n 3
  let emotion_label := em.get_emotion_label
  let memory : Vec8 := fun i => MEMORY_BETA * e.memory i + (1 - MEMORY_BETA) * H i
  let trust_room_up := max (TRUST_MAX - e.trust) 0
  let trust_room_down := max (e.trust - TRUST_MIN) 0
  let trust_up := TRUST_GAMMA * S * trust_room_up ^ TRUST_UP_EXP
  let trust_down := TRUST_LAMBDA * D * trust_room_down ^ TRUST_DOWN_EXP
  let trust := pyClip (e.trust + trust_up - trust_down) TRUST_MIN TRUST_MAX
  let output_intensity := trust * dominant.2
  let result : TurnResult :=
    { turn := turn
      message := message
      delta_t := roundPy delta_t 4
      inputS := S
      inputD := D
      inputC := C
      hormones := hs.get_state_dict
      hormone_delta := fun i => roundPy (delta_H i) 4
      emotions := em.get_state_dict
      dominant_emotion := dominant.1
      dominant_score := roundPy dominant.2 4
      emotion_blend := emotion_label
      top3_emotions := top3
      memory := fun i => roundPy (memory i) 4
      trust := roundPy trust 4
      output_intensity := roundPy output_intensity 4 }
  ({ name := e.name
     hormones := hs
     emotions := em
     memory := memory
     trust := trust
     turn := turn
     turn_log := e.turn_log ++ [result] }, result)

/-- The snapshot produced by `EVCEngine.get_full_state`. -/
structure FullState where
  turn : ℕ
  hormones : Vec8
  memory : Vec8
  trust : ℝ
  name : String

/-- `EVCEngine.get_full_state`. -/
def EVCEngine.get_full_state (e : EVCEngine) : FullState :=
  { turn := e.turn
    hormones := e.hormones.H
    memory := e.memory
    trust := e.trust
    name := e.name }

/-- `EVCEngine.load_state`: restores turn, hormone vector (with
`H_prev := H`), memory, trust and name; histories and logs are untouched. -/
def EVCEngine.load_state (e : EVCEngine) (s : FullState) : EVCEngine :=
  { e with
    turn := s.turn
    hormones := { e.hormones with H := s.hormones, H_prev := s.hormones }
    memory := s.memory
    trust := s.trust
    name := s.name }

/-! ## `UserEmotionTracker` (`user_emotion_tracker.py`) -/

def RECENT_WINDOW : ℕ := 5
def OLDER_WINDOW : ℕ := 15
def TREND_THRESHOLD : ℝ := 0.12
def MAX_HISTORY : ℕ := 50

structure EmotionRecord where
  turn : ℕ
  S : ℝ
  D : ℝ
  C : ℝ
  user_emotion : String
  message_preview : String

structure UserEmotionTracker where
  history : List EmotionRecord
  turn_count : ℕ
  engine : EVCEngine
  last_turn_result : Option TurnResult

/-- `UserEmotionTracker.__init__`. -/
def UserEmotionTracker.init : UserEmotionTracker :=
  { history := []
    turn_count := 0
    engine := EVCEngine.init none "User"
    last_turn_result := none }

/-- Append with the `deque(maxlen=50)` eviction of the oldest records. -/
def dequeAppend (l : List EmotionRecord) (r : EmotionRecord) : List EmotionRecord :=
  let l' := l ++ [r]
  if MAX_HISTORY < l'.length then l'.drop (l'.length - MAX_HISTORY) else l'

/-- `UserEmotionTracker.record_turn`; `delta_t` defaults to `1.0` at call
sites that omit it. -/
def UserEmotionTracker.record_turn (t : UserEmotionTracker)
    (S D C : ℝ) (user_emotion : String) (delta_t : ℝ) (message_preview : String) :
    UserEmotionTracker :=
  let turn_count := t.turn_count + 1
  let rec_entry : EmotionRecord :=
    { turn := turn_count
      S := roundPy S 4
      D := roundPy D 4
      C := roundPy C 4
      user_emotion := user_emotion
      message_preview := message_preview.take 60 }
  let step := t.engine.process_turn S D C delta_t (message_preview.take 60)
  { history := dequeAppend t.history rec_entry
    turn_count := turn_count
    engine := step.1
    last_turn_result := some step.2 }

/-- `UserEmotionTracker._avg` over one field (`0.5` on an empty list). -/
def avgField (records : List EmotionRecord) (f : EmotionRecord → ℝ) : ℝ :=
  if records = [] then 0.5
  else (records.map f).sum / records.length

def TREND_INSUFFICIENT : String := "ยังไม่มีข้อมูลเพียงพอ"
def TREND_IMPROVING : String := "อารมณ์ดีขึ้นเรื่อยๆ (improving)"
def TREND_WORSENING : String := "อารมณ์แย่ลง / เครียดมากขึ้น (worsening)"
def TREND_STABLE : String := "อารมณ์คงที่ (stable)"

/-- Python slice `l[-15:-5]`, i.e. `l[max(len-15,0) : max(len-5,0)]`. -/
def sliceOlder (l : List EmotionRecord) : List EmotionRecord :=
  (l.take (l.length - RECENT_WINDOW)).drop (l.length - OLDER_WINDOW)

/-- `UserEmotionTracker.get_trend`. -/
def UserEmotionTracker.get_trend (t : UserEmotionTracker) : String :=
  if t.history.length < RECENT_WINDOW + 2 then TREND_INSUFFICIENT
  else
    let all_records := t.history
    let recent := all_records.drop (all_records.length - RECENT_WINDOW)
    let older :=
      if RECENT_WINDOW < all_records.length then sliceOlder all_records
      else all_records.take RECENT_WINDOW
    if older = [] then TREND_INSUFFICIENT
    else
      let recent_positivity := avgField recent (·.S) - avgField recent (·.D)
      let older_positivity := avgField older (·.S) - avgField older (·.D)
      let diff := recent_positivity - older_positivity
      if TREND_THRESHOLD < diff then TREND_IMPROVING
      else if diff < -TREND_THRESHOLD then TREND_WORSENING
      else TREND_STABLE

/-! ## `GroqBridge.analyze_message` (`groq_bridge.py`) -/

structure AnalyzerResult where
  S : ℝ
  D : ℝ
  C : ℝ
  user_emotion : String
deriving DecidableEq

def NEG_KEYWORDS : List String :=
  ["เหนื่อย", "แย่", "เศร้า", "โกรธ", "bad", "sad", "angry"]

/-- Substring test on character lists (`k in lower` in Python). -/
def charsContain (hay needle : List Char) : Bool :=
  match hay with
  | [] => needle.isEmpty
  | _ :: t => needle.isPrefixOf hay || charsContain t needle

def strContains (hay needle : String) : Bool := charsContain hay.data needle.data

def strToLower (s : String) : String := ⟨s.data.map Char.toLower⟩

/-- The keyword heuristic branch of `analyze_message`. -/
def negKeywordHit (message : String) : Bool :=
  NEG_KEYWORDS.any (fun k => strContains (strToLower message) k)

/-- The heuristic fallback result used when no Groq client is configured. -/
def heuristicResult (message : String) : AnalyzerResult :=
  if negKeywordHit message then
    { S := 0.2, D := 0.6, C := 1.1, user_emotion := "negative" }
  else
    { S := 0.6, D := 0.1, C := 0.9, user_emotion := "neutral-positive" }

/-- The JSON object parsed from the analyzer completion; absent keys are
defaulted by `parsed.get`. -/
structure AnalyzerJson where
  S : Option ℝ
  D : Option ℝ
  C : Option ℝ
  user_emotion : Option String

/-- `GroqBridge.analyze_message`.  `client = none` models a missing Groq
client (no API key / library); `some outcome` models a configured client
whose completion-plus-JSON-parse either succeeds with a parsed object or
raises (transport error, timeout, malformed JSON).  The body has no
exception handler, so a raised error propagates to the caller. -/
def analyze_message (client : Option (Except String AnalyzerJson))
    (message : String) : Except String AnalyzerResult :=
  match client with
  | none => Except.ok (heuristicResult message)
  | some (Except.error e) => Except.error e
  | some (Except.ok parsed) =>
      Except.ok
        { S := parsed.S.getD 0.5
          D := parsed.D.getD 0.2
          C := parsed.C.getD 1.0
          user_emotion := parsed.user_emotion.getD "neutral" }

/-! ## Chat pipeline slice (`main.py`) -/

def TURN_SECONDS : ℝ := 300.0
def MIN_DELTA_T : ℝ := 0.05
def MAX_DELTA_T : ℝ := 12.0

/-- `main._clamp`. -/
def clampF (value low high : ℝ) : ℝ := max low (min high value)

/-- `main._compute_delta_t_turns`: returns the `delta_t` together with the
updated `last_turn_ts` stored back into the session. -/
def compute_delta_t_turns (last_turn_ts : Option ℝ) (now_ts : ℝ) : ℝ × Option ℝ :=
  match last_turn_ts with
  | none => (1.0, some now_ts)
  | some last =>
      let elapsed_sec := max (now_ts - last) 0
      (clampF (elapsed_sec / TURN_SECONDS) MIN_DELTA_T MAX_DELTA_T, some now_ts)

/-- The EVC-relevant slice of the per-session state used by `main.chat`. -/
structure ChatSessionSlice where
  engine : EVCEngine
  tracker : UserEmotionTracker
  last_turn_ts : Option ℝ

/-- Steps 3–4 of `main.chat` (lines 462–491): clamp the analyzer signals,
record them on the user-emotion tracker (which omits `delta_t`, so the
tracker engine advances with the default `1.0`), then advance the session
engine with the elapsed-time-scaled `delta_t`. -/
def chat_evc_step (st : ChatSessionSlice) (now_ts : ℝ)
    (analysis : AnalyzerResult) (message : String) :
    ChatSessionSlice × TurnResult :=
  let S := clampF analysis.S 0 1
  let D := clampF analysis.D 0 1
  let C := clampF analysis.C 0.5 1.5
  let tracker := st.tracker.record_turn S D C analysis.user_emotion 1.0 (message.take 60)
  let dt := compute_delta_t_turns st.last_turn_ts now_ts
  let step := st.engine.process_turn S D C dt.1 message
  ({ engine := step.1, tracker := tracker, last_turn_ts := dt.2 }, step.2)

/-! ## Claim-side (spec-worded) definitions used for refinement comparisons -/

/-- Spec wording of the per-hormone decay factor: no `1e-6` floor, i.e.
`exp(-(ln 2 / (HALF_LIFE_TURNS[i] * factor[i])) * delta_t)` with
`factor[i] = clamp(1 + STRESS_SENS[i] * clamp(D*C,0,1.5)
                     + ACTIVATION_SENS[i] * |H[i] - BASELINE[i]|, 0.65, 2.00)`. -/
def decayClaim (H : Vec8) (D C delta_t : ℝ) : Vec8 := fun i =>
  Real.exp (-(Real.log 2 /
      (HALF_LIFE_TURNS i *
        pyClip (1 + HALF_LIFE_STRESS_SENS i * pyClip (D * C) 0 1.5
            + HALF_LIFE_ACTIVATION_SENS i * |H i - H_BASELINE i|) 0.65 2.00)) * delta_t)

/-- Spec wording of the linear step
`H * decay + 0.60 * (K * stimulus) + 0.10 * (BASELINE - H)` with
`stimulus[i] = P_POS[i]*S*C - P_NEG[i]*(D*NEGATIVITY_BIAS)*C`. -/
def linearStepClaim (hs : HormoneSystem) (S D C delta_t : ℝ) : Vec8 := fun i =>
  hs.H i * decayClaim hs.H D C delta_t i
    + 0.60 * (hs.K i * (P_POS i * S * C - P_NEG i * (D * NEGATIVITY_BIAS) * C))
    + 0.10 * (H_BASELINE i - hs.H i)

/-- Spec wording of the full update: linear step, then
`H + 0.15 * (H_INTERACT @ H)`, then soft clamp. -/
def updateClaim (hs : HormoneSystem) (S D C delta_t : ℝ) : Vec8 :=
  let lin := linearStepClaim hs S D C delta_t
  fun i => soft_clip01 (lin i + 0.15 * ∑ j, H_INTERACT i j * lin j)

/-- A snapshot taken at turn 5 (as `get_full_state` would produce after five
processed turns). -/
def restoredBlob : FullState :=
  { turn := 5, hormones := H_BASELINE, memory := H_BASELINE, trust := 0.5, name := "Jarvis" }

/-- Spec wording of the trend derivation (claim C8): older window is
`history[-15:-5]`, *or `history[:5]` when the history is shorter than 15
records*. -/
def getTrendClaim (t : UserEmotionTracker) : String :=
  if t.history.length < RECENT_WINDOW + 2 then TREND_INSUFFICIENT
  else
    let recent := t.history.drop (t.history.length - RECENT_WINDOW)
    let older :=
      if t.history.length < OLDER_WINDOW then t.history.take RECENT_WINDOW
      else sliceOlder t.history
    let diff := (avgField recent (·.S) - avgField recent (·.D))
      - (avgField older (·.S) - avgField older (·.D))
    if TREND_THRESHOLD < diff then TREND_IMPROVING
    else if diff < -TREND_THRESHOLD then TREND_WORSENING
    else TREND_STABLE

def mkSignalRecord (n : ℕ) (S D : ℝ) : EmotionRecord :=
  { turn := n, S := S, D := D, C := 1, user_emotion := "x", message_preview := "" }

/-- Seven stored records: two neutral, two strongly positive, three neutral. -/
def trendHistory7 : List EmotionRecord :=
  [mkSignalRecord 1 0 0, mkSignalRecord 2 0 0, mkSignalRecord 3 1 0,
   mkSignalRecord 4 1 0, mkSignalRecord 5 0 0, mkSignalRecord 6 0 0,
   mkSignalRecord 7 0 0]

def trendTracker7 : UserEmotionTracker :=
  { history := trendHistory7
    turn_count := 7
    engine := EVCEngine.init none "User"
    last_turn_result := none }

/-- Ascending value order with index tie-breaking — the order actually
produced by the stable ascending argsort over the index list. -/
def lexAsc (E : Vec8) (i j : Fin 8) : Prop := E i < E j ∨ (E i = E j ∧ i < j)

/-- An emotion mapper whose normalized emotion vector is exactly uniform
(the vector `compute` produces when every rectified score is zero). -/
def uniformMapper : EmotionMapper :=
  { emotions_raw := fun _ => 1 / 8
    emotions_normalized := fun _ => 1 / 8
    history := [] }

/-- A hormone state for the round-trip counterexample: baseline except an
elevated Dopamine level. -/
def c5H : Vec8 := fun i => match i with
  | 0 => 0.81 | 1 => 0.60 | 2 => 0.40 | 3 => 0.30
  | 4 => 0.30 | 5 => 0.20 | 6 => 0.50 | 7 => 0.30

/-- An engine built with the `PERSONALITY_SENSITIVE` preset (as
`eval_mode.py` constructs); its `get_full_state` snapshot omits `K`. -/
def sensitiveEngine : EVCEngine :=
  { name := "Jarvis-sensitive"
    hormones := { H := c5H, H_prev := c5H, K := PERSONALITY_SENSITIVE, history := [c5H] }
    emotions := EmotionMapper.init
    memory := H_BASELINE
    trust := 0.5
    turn := 0
    turn_log := [] }

/-! ## Shared helper lemmas -/

theorem pyClip_le_upper (x lo hi : ℝ) : pyClip x lo hi ≤ hi := min_le_right _ _

theorem pyClip_lower (x lo hi : ℝ) (h : lo ≤ hi) : lo ≤ pyClip x lo hi :=
  le_min (le_max_right _ _) h

theorem half_life_turns_lower (i : Fin 8) : (0.4 : ℝ) ≤ HALF_LIFE_TURNS i := by
  fin_cases i <;> norm_num [HALF_LIFE_TURNS]

/-- The `np.maximum(effective_half_life, 1e-6)` floor in
`_compute_decay_factor` is inert: the effective half-life is at least
`0.4 * 0.65`. -/
theorem compute_decay_factor_eq_claim (H : Vec8) (D C delta_t : ℝ) :
    compute_decay_factor H D C delta_t = decayClaim H D C delta_t := by
  funext i
  have hfac : (0.65 : ℝ) ≤
      pyClip (1 + HALF_LIFE_STRESS_SENS i * pyClip (D * C) 0 1.5
          + HALF_LIFE_ACTIVATION_SENS i * |H i - H_BASELINE i|) 0.65 2.00 :=
    pyClip_lower _ _ _ (by norm_num)
  have hhl := half_life_turns_lower i
  have hprod : (1e-6 : ℝ) ≤ HALF_LIFE_TURNS i *
      pyClip (1 + HALF_LIFE_STRESS_SENS i * pyClip (D * C) 0 1.5
          + HALF_LIFE_ACTIVATION_SENS i * |H i - H_BASELINE i|) 0.65 2.00 := by
    nlinarith
  simp only [compute_decay_factor, decayClaim, HALF_LIFE_MIN_FACTOR, HALF_LIFE_MAX_FACTOR]
  rw [max_eq_left hprod]

theorem soft_clip01_pos (x : ℝ) : 0 < soft_clip01 x := by
  unfold soft_clip01
  positivity

theorem soft_clip01_lt_one (x : ℝ) : soft_clip01 x < 1 := by
  unfold soft_clip01
  rw [div_lt_one (by positivity)]
  have := Real.exp_pos (-((x - 0.5) * SOFT_CLAMP_SHARPNESS))
  linarith

/-- At `delta_t = 0` every decay factor is `exp 0 = 1`. -/
theorem compute_decay_factor_zero (H : Vec8) (D C : ℝ) :
    compute_decay_factor H D C 0 = fun _ => 1 := by
  funext i
  simp [compute_decay_factor]

/-- Quantitative sigmoid bound below the midpoint, from `x + 1 ≤ exp x`. -/
theorem soft_clip01_le_of_le (x : ℝ) (h : x ≤ 0.49) : soft_clip01 x ≤ 0.4931 := by
  have hs : (0.028 : ℝ) ≤ -((x - 0.5) * SOFT_CLAMP_SHARPNESS) := by
    simp only [SOFT_CLAMP_SHARPNESS]
    nlinarith
  have hexp : (1.028 : ℝ) ≤ Real.exp (-((x - 0.5) * SOFT_CLAMP_SHARPNESS)) := by
    have h1 := Real.add_one_le_exp (0.028 : ℝ)
    have h2 := Real.exp_le_exp.mpr hs
    linarith
  have hpos : (0 : ℝ) < 1 + Real.exp (-((x - 0.5) * SOFT_CLAMP_SHARPNESS)) := by positivity
  unfold soft_clip01
  rw [div_le_iff₀ hpos]
  linarith

/-- Quantitative sigmoid bound above the midpoint, from `x + 1 ≤ exp x`. -/
theorem le_soft_clip01_of_le (x : ℝ) (h : (0.51 : ℝ) ≤ x) : (0.5069 : ℝ) ≤ soft_clip01 x := by
  have hs : -((x - 0.5) * SOFT_CLAMP_SHARPNESS) ≤ -0.028 := by
    simp only [SOFT_CLAMP_SHARPNESS]
    nlinarith
  have h1 : (1.028 : ℝ) ≤ Real.exp 0.028 := by
    have := Real.add_one_le_exp (0.028 : ℝ)
    linarith
  have h2 : Real.exp (-((x - 0.5) * SOFT_CLAMP_SHARPNESS)) ≤ Real.exp (-0.028) :=
    Real.exp_le_exp.mpr hs
  have h3 : Real.exp (-0.028) ≤ 1 / 1.028 := by
    rw [Real.exp_neg, one_div]
    exact inv_anti₀ (by norm_num) h1
  have hpos : (0 : ℝ) < 1 + Real.exp (-((x - 0.5) * SOFT_CLAMP_SHARPNESS)) := by positivity
  unfold soft_clip01
  rw [le_div_iff₀ hpos]
  linarith

theorem roundHalfEven_le_of_le (y : ℝ) (N : ℤ) (h : y ≤ (N : ℝ)) : roundHalfEven y ≤ N := by
  rcases eq_or_lt_of_le h with heq | hlt
  · rw [roundHalfEven, heq, Int.fract_intCast, Int.floor_intCast]
    norm_num
  · have hfl : ⌊y⌋ < N := Int.floor_lt.mpr hlt
    unfold roundHalfEven
    split_ifs <;> omega

theorem le_roundHalfEven_of_le (y : ℝ) (N : ℤ) (h : (N : ℝ) ≤ y) : N ≤ roundHalfEven y := by
  have hfl : N ≤ ⌊y⌋ := Int.le_floor.mpr h
  unfold roundHalfEven
  split_ifs <;> omega

/-- Python rounding to 4 decimals is bounded by any 4-decimal grid point
above the value. -/
theorem roundPy_le_of_le (x : ℝ) (N : ℤ) (h : x ≤ (N : ℝ) / 10 ^ 4) :
    roundPy x 4 ≤ (N : ℝ) / 10 ^ 4 := by
  have h1 : x * 10 ^ 4 ≤ (N : ℝ) := by
    rw [← le_div_iff₀ (by norm_num : (0 : ℝ) < 10 ^ 4)]
    exact h
  have h2 : ((roundHalfEven (x * 10 ^ 4) : ℤ) : ℝ) ≤ (N : ℝ) :=
    Int.cast_le.mpr (roundHalfEven_le_of_le _ N h1)
  unfold roundPy
  exact (div_le_div_iff_of_pos_right (by norm_num : (0 : ℝ) < 10 ^ 4)).mpr h2

/-- Python rounding to 4 decimals is bounded by any 4-decimal grid point
below the value. -/
theorem le_roundPy_of_le (x : ℝ) (N : ℤ) (h : (N : ℝ) / 10 ^ 4 ≤ x) :
    (N : ℝ) / 10 ^ 4 ≤ roundPy x 4 := by
  have h1 : (N : ℝ) ≤ x * 10 ^ 4 := by
    rw [← div_le_iff₀ (by norm_num : (0 : ℝ) < 10 ^ 4)]
    exact h
  have h2 : (N : ℝ) ≤ ((roundHalfEven (x * 10 ^ 4) : ℤ) : ℝ) :=
    Int.cast_le.mpr (le_roundHalfEven_of_le _ N h1)
  unfold roundPy
  exact (div_le_div_iff_of_pos_right (by norm_num : (0 : ℝ) < 10 ^ 4)).mpr h2

theorem update_H_eq (hs : HormoneSystem) (S D C delta_t : ℝ) :
    (hs.update S D C delta_t).H = updateClaim hs S D C delta_t := by
  have hdec := compute_decay_factor_eq_claim hs.H D C delta_t
  funext i
  simp only [HormoneSystem.update, updateClaim, linearStepClaim, calculate_stimulus,
    STIMULUS_GAIN, RECOVERY_RATE, INTERACTION_STRENGTH, hdec]

/-! ## Claim theorems -/

/-- Claim C1: `HormoneSystem.update(S, D, C, delta_t)` executes exactly, in
order: the stimulus `P_POS[i]*S*C - P_NEG[i]*(D*NEGATIVITY_BIAS)*C`; the
per-hormone decay factor `exp(-(ln 2 / (HALF_LIFE_TURNS[i] * factor[i])) *
delta_t)` with `factor[i] = clamp(1 + STRESS_SENS[i]*clamp(D*C,0,1.5) +
ACTIVATION_SENS[i]*|H[i]-BASELINE[i]|, 0.65, 2.00)`; the linear step
`H <- H*decay + 0.60*(K*stimulus) + 0.10*(BASELINE - H)`; the
cross-interaction `H <- H + 0.15*(H_INTERACT @ H)`; then the soft clamp.
When `delta_t = 0` the decay factor is identically `1`, so the full
stimulus and interaction still apply. -/
theorem hormone_update_follows_spec_pipeline (hs : HormoneSystem) (S D C delta_t : ℝ) :
    (hs.update S D C delta_t).H = updateClaim hs S D C delta_t ∧
    compute_decay_factor hs.H D C 0 = fun _ => 1 := by
  refine ⟨update_H_eq hs S D C delta_t, ?_⟩
  rw [compute_decay_factor_eq_claim]
  funext i
  simp [decayClaim]

/-- Claim C2: after every `HormoneSystem.update`, with any inputs, every
hormone component is strictly between `0` and `1` (the final step is the
logistic soft clamp). -/
theorem hormones_strictly_within_unit_interval
    (hs : HormoneSystem) (S D C delta_t : ℝ) (i : Fin 8) :
    0 < (hs.update S D C delta_t).H i ∧ (hs.update S D C delta_t).H i < 1 := by
  have h : (hs.update S D C delta_t).H i = soft_clip01
      ((fun k => hs.H k * compute_decay_factor hs.H D C delta_t k
          + STIMULUS_GAIN * (hs.K k * calculate_stimulus S D C k)
          + RECOVERY_RATE * (H_BASELINE k - hs.H k)) i
        + INTERACTION_STRENGTH * ∑ j, H_INTERACT i j *
          (fun k => hs.H k * compute_decay_factor hs.H D C delta_t k
              + STIMULUS_GAIN * (hs.K k * calculate_stimulus S D C k)
              + RECOVERY_RATE * (H_BASELINE k - hs.H k)) j) := rfl
  rw [h]
  exact ⟨soft_clip01_pos _, soft_clip01_lt_one _⟩

/-- Claim C3: `EmotionMapper.compute(H)` computes `W @ H`, rectifies it, and
normalizes: the result is entrywise nonnegative; when the rectified sum is
positive the result is the rectified vector divided by its sum, otherwise
exactly the uniform vector `1/8`; in both cases it sums to `1`. -/
theorem emotion_compute_is_normalized_relu (em : EmotionMapper) (H : Vec8) :
    (∀ i, 0 ≤ (em.compute H).emotions_normalized i) ∧
    (em.compute H).emotions_normalized =
      (if 0 < ∑ k, max 0 (∑ j, W_MATRIX k j * H j) then
        fun i => max 0 (∑ j, W_MATRIX i j * H j) /
          ∑ k, max 0 (∑ j, W_MATRIX k j * H j)
      else fun _ => 1 / 8) ∧
    ∑ i, (em.compute H).emotions_normalized i = 1 := by
  have hnorm : (em.compute H).emotions_normalized =
      (if 0 < ∑ k, max 0 (∑ j, W_MATRIX k j * H j) then
        fun i => max 0 (∑ j, W_MATRIX i j * H j) /
          ∑ k, max 0 (∑ j, W_MATRIX k j * H j)
      else fun _ => 1 / 8) := rfl
  refine ⟨?_, hnorm, ?_⟩
  · intro i
    rw [hnorm]
    by_cases h : 0 < ∑ k, max 0 (∑ j, W_MATRIX k j * H j)
    · rw [if_pos h]
      exact div_nonneg (le_max_left _ _) (le_of_lt h)
    · rw [if_neg h]
      norm_num
  · rw [hnorm]
    by_cases h : 0 < ∑ k, max 0 (∑ j, W_MATRIX k j * H j)
    · rw [if_pos h]
      rw [← Finset.sum_div]
      exact div_self (ne_of_gt h)
    · rw [if_neg h]
      simp [Finset.sum_const, Finset.card_univ]

/-- Claim C4: the trust scalar lies in `[TRUST_MIN, TRUST_MAX] = [0.05, 0.95]`
at all times: immediately after construction it equals `TRUST_INITIAL = 0.5`,
and after every `process_turn`, for any inputs, the clipped update keeps it
inside the interval. -/
theorem trust_always_in_bounds (p : Option Vec8) (nm : String)
    (e : EVCEngine) (S D C delta_t : ℝ) (message : String) :
    (EVCEngine.init p nm).trust = 0.5 ∧
    (0.05 : ℝ) ≤ (EVCEngine.init p nm).trust ∧ (EVCEngine.init p nm).trust ≤ 0.95 ∧
    (0.05 : ℝ) ≤ (e.process_turn S D C delta_t message).1.trust ∧
    (e.process_turn S D C delta_t message).1.trust ≤ 0.95 := by
  have hinit : (EVCEngine.init p nm).trust = 0.5 := by
    simp [EVCEngine.init, TRUST_INITIAL]
  have htr : (e.process_turn S D C delta_t message).1.trust =
      pyClip (e.trust + TRUST_GAMMA * S * max (TRUST_MAX - e.trust) 0 ^ TRUST_UP_EXP
          - TRUST_LAMBDA * D * max (e.trust - TRUST_MIN) 0 ^ TRUST_DOWN_EXP)
        TRUST_MIN TRUST_MAX := rfl
  refine ⟨hinit, by rw [hinit]; norm_num, by rw [hinit]; norm_num, ?_, ?_⟩
  · rw [htr]
    have := pyClip_lower (e.trust + TRUST_GAMMA * S * max (TRUST_MAX - e.trust) 0 ^ TRUST_UP_EXP
          - TRUST_LAMBDA * D * max (e.trust - TRUST_MIN) 0 ^ TRUST_DOWN_EXP)
        TRUST_MIN TRUST_MAX (by norm_num [TRUST_MIN, TRUST_MAX])
    simpa [TRUST_MIN] using this
  · rw [htr]
    have := pyClip_le_upper (e.trust + TRUST_GAMMA * S * max (TRUST_MAX - e.trust) 0 ^ TRUST_UP_EXP
          - TRUST_LAMBDA * D * max (e.trust - TRUST_MIN) 0 ^ TRUST_DOWN_EXP)
        TRUST_MIN TRUST_MAX
    simpa [TRUST_MAX] using this

/-- The turn-result record of `process_turn` depends on the engine only
through `turn`, `hormones.H`, `hormones.K`, `memory` and `trust`; the
previous-hormone cache, the histories, the emotion-mapper scratch state and
the turn log do not enter the record. -/
theorem process_turn_result_congr (e1 e2 : EVCEngine)
    (hH : e1.hormones.H = e2.hormones.H) (hK : e1.hormones.K = e2.hormones.K)
    (hm : e1.memory = e2.memory) (ht : e1.trust = e2.trust) (htu : e1.turn = e2.turn)
    (S D C delta_t : ℝ) (message : String) :
    (e1.process_turn S D C delta_t message).2 = (e2.process_turn S D C delta_t message).2 := by
  obtain ⟨n1, ⟨H1, P1, K1, hist1⟩, em1, m1, t1, u1, l1⟩ := e1
  obtain ⟨n2, ⟨H2, P2, K2, hist2⟩, em2, m2, t2, u2, l2⟩ := e2
  simp only at hH hK hm ht htu
  subst hH hK hm ht htu
  rfl

/-- Counterexample to claim C5: `get_full_state` does not serialize the
personality vector `K`, so for an engine built with the
`PERSONALITY_SENSITIVE` preset (as `eval_mode.py` does) the restored fresh
engine computes a different stimulus term and its next `process_turn`
record differs from the original's.  At `delta_t = 0` the decay factor is
exactly 1, the pre-clamp Dopamine values are the rationals `0.513245`
(restored, default `K`) versus `0.377705` (original, sensitive `K`), they
straddle the sigmoid midpoint, and the recorded 4-decimal hormone values
are separated by the grid points `0.5069` and `0.4931`. -/
theorem round_trip_restore_differs_for_sensitive_personality :
    (((EVCEngine.init none "Jarvis").load_state sensitiveEngine.get_full_state).process_turn
        0 0.5 1 0 "hi").2 ≠
      (sensitiveEngine.process_turn 0 0.5 1 0 "hi").2 := by
  have keyL : ((HormoneSystem.mk c5H c5H PERSONALITY_DEFAULT [H_BASELINE]).update 0 0.5 1 0).H 0 =
      soft_clip01 0.513245 := by
    simp only [HormoneSystem.update, calculate_stimulus, compute_decay_factor_zero]
    congr 1
    norm_num [Fin.sum_univ_eight, c5H, PERSONALITY_DEFAULT, H_BASELINE, P_POS, P_NEG,
      NEGATIVITY_BIAS, STIMULUS_GAIN, RECOVERY_RATE, INTERACTION_STRENGTH,
      H_INTERACT, H_INTERACT_row0]
  have keyR : ((HormoneSystem.mk c5H c5H PERSONALITY_SENSITIVE [c5H]).update 0 0.5 1 0).H 0 =
      soft_clip01 0.377705 := by
    simp only [HormoneSystem.update, calculate_stimulus, compute_decay_factor_zero]
    congr 1
    norm_num [Fin.sum_univ_eight, c5H, PERSONALITY_SENSITIVE, H_BASELINE, P_POS, P_NEG,
      NEGATIVITY_BIAS, STIMULUS_GAIN, RECOVERY_RATE, INTERACTION_STRENGTH,
      H_INTERACT, H_INTERACT_row0]
  have hrecL : (((EVCEngine.init none "Jarvis").load_state
        sensitiveEngine.get_full_state).process_turn 0 0.5 1 0 "hi").2.hormones 0 =
      roundPy (soft_clip01 0.513245) 4 := by
    have h : (((EVCEngine.init none "Jarvis").load_state
          sensitiveEngine.get_full_state).process_turn 0 0.5 1 0 "hi").2.hormones 0 =
        roundPy (((HormoneSystem.mk c5H c5H PERSONALITY_DEFAULT [H_BASELINE]).update
          0 0.5 1 0).H 0) 4 := rfl
    rw [h, keyL]
  have hrecR : (sensitiveEngine.process_turn 0 0.5 1 0 "hi").2.hormones 0 =
      roundPy (soft_clip01 0.377705) 4 := by
    have h : (sensitiveEngine.process_turn 0 0.5 1 0 "hi").2.hormones 0 =
        roundPy (((HormoneSystem.mk c5H c5H PERSONALITY_SENSITIVE [c5H]).update
          0 0.5 1 0).H 0) 4 := rfl
    rw [h, keyR]
  have hσL : (0.5069 : ℝ) ≤ soft_clip01 0.513245 := le_soft_clip01_of_le _ (by norm_num)
  have hσR : soft_clip01 0.377705 ≤ 0.4931 := soft_clip01_le_of_le _ (by norm_num)
  have hA : ((5069 : ℤ) : ℝ) / 10 ^ 4 ≤ roundPy (soft_clip01 0.513245) 4 :=
    le_roundPy_of_le _ 5069 (by push_cast; linarith)
  have hB : roundPy (soft_clip01 0.377705) 4 ≤ ((4931 : ℤ) : ℝ) / 10 ^ 4 :=
    roundPy_le_of_le _ 4931 (by push_cast; linarith)
  intro heq
  have h0 : roundPy (soft_clip01 0.513245) 4 = roundPy (soft_clip01 0.377705) 4 := by
    rw [← hrecL, ← hrecR, heq]
  rw [h0] at hA
  have hcontra := le_trans hA hB
  norm_num at hcontra

/-- Amended claim C5: round-trip restore holds for every engine whose
personality equals the fresh engine's default — in particular every engine
the backend constructs: loading `get_full_state()` into a freshly
constructed engine and running the next `process_turn` under the same
`(S, D, C, delta_t, message)` yields a result record identical to the one
the original engine produces.  (In general the claim fails because
`get_full_state` omits `K`; see the counterexample.) -/
theorem round_trip_restore_same_result (e : EVCEngine) (S D C delta_t : ℝ)
    (message : String) (hK : e.hormones.K = PERSONALITY_DEFAULT) :
    (((EVCEngine.init none "Jarvis").load_state e.get_full_state).process_turn
        S D C delta_t message).2 =
      (e.process_turn S D C delta_t message).2 := by
  apply process_turn_result_congr
  · rfl
  · exact hK.symm
  · rfl
  · rfl
  · rfl

/-- Witness for C5 at a concrete engine and concrete inputs. -/
theorem round_trip_restore_same_result_witness :
    (((EVCEngine.init none "Jarvis").load_state
          (EVCEngine.init none "Jarvis").get_full_state).process_turn
        0.8 0 1 1 "hello").2 =
      ((EVCEngine.init none "Jarvis").process_turn 0.8 0 1 1 "hello").2 :=
  round_trip_restore_same_result (EVCEngine.init none "Jarvis") 0.8 0 1 1 "hello" rfl

/-- Counterexample to claim C6: after `load_state` the histories are not
reconstructed, so a fresh engine loaded with a turn-5 snapshot has
`hormones.history.len() = 1 ≠ turn + 1 = 6` and
`emotions.history.len() = 0 ≠ turn = 5`. -/
theorem load_state_breaks_history_invariant :
    ((EVCEngine.init none "Jarvis").load_state restoredBlob).hormones.history.length = 1 ∧
    ((EVCEngine.init none "Jarvis").load_state restoredBlob).emotions.history.length = 0 ∧
    ((EVCEngine.init none "Jarvis").load_state restoredBlob).turn = 5 ∧
    ((EVCEngine.init none "Jarvis").load_state restoredBlob).hormones.history.length ≠
      ((EVCEngine.init none "Jarvis").load_state restoredBlob).turn + 1 ∧
    ((EVCEngine.init none "Jarvis").load_state restoredBlob).emotions.history.length ≠
      ((EVCEngine.init none "Jarvis").load_state restoredBlob).turn :=
  ⟨rfl, rfl, rfl, by decide, by decide⟩

/-- Amended claim C6: the history-length invariant
`hormones.history.len() = turn + 1 ∧ emotions.history.len() = turn` holds
after construction and is preserved by every `process_turn`, but it is not
restored by `load_state` (histories are untouched while `turn` is
overwritten). -/
theorem history_lengths_track_turn (p : Option Vec8) (nm : String)
    (e : EVCEngine) (S D C delta_t : ℝ) (message : String)
    (h1 : e.hormones.history.length = e.turn + 1)
    (h2 : e.emotions.history.length = e.turn) :
    (EVCEngine.init p nm).hormones.history.length = (EVCEngine.init p nm).turn + 1 ∧
    (EVCEngine.init p nm).emotions.history.length = (EVCEngine.init p nm).turn ∧
    (e.process_turn S D C delta_t message).1.hormones.history.length =
      (e.process_turn S D C delta_t message).1.turn + 1 ∧
    (e.process_turn S D C delta_t message).1.emotions.history.length =
      (e.process_turn S D C delta_t message).1.turn := by
  refine ⟨rfl, rfl, ?_, ?_⟩
  · have : (e.process_turn S D C delta_t message).1.hormones.history =
        e.hormones.history ++ [(e.hormones.update S D C delta_t).H] := rfl
    rw [this, List.length_append, h1]
    rfl
  · have : (e.process_turn S D C delta_t message).1.emotions.history =
        e.emotions.history ++ [(e.emotions.compute (e.hormones.update S D C delta_t).H).emotions_normalized] := rfl
    rw [this, List.length_append, h2]
    rfl

/-- Witness for the amended C6 at a fresh engine and one concrete turn. -/
theorem history_lengths_track_turn_witness :
    ((EVCEngine.init none "Jarvis").process_turn 0.5 0.5 1 1 "hi").1.hormones.history.length =
      ((EVCEngine.init none "Jarvis").process_turn 0.5 0.5 1 1 "hi").1.turn + 1 ∧
    ((EVCEngine.init none "Jarvis").process_turn 0.5 0.5 1 1 "hi").1.emotions.history.length =
      ((EVCEngine.init none "Jarvis").process_turn 0.5 0.5 1 1 "hi").1.turn :=
  ⟨(history_lengths_track_turn none "Jarvis" (EVCEngine.init none "Jarvis")
      0.5 0.5 1 1 "hi" rfl rfl).2.2.1,
   (history_lengths_track_turn none "Jarvis" (EVCEngine.init none "Jarvis")
      0.5 0.5 1 1 "hi" rfl rfl).2.2.2⟩

/-- Counterexample to claim C9: with a configured client, a failing analyzer
call (transport error, timeout, malformed JSON) propagates out of
`analyze_message` uncaught — it is not replaced by the heuristic result. -/
theorem analyzer_failure_propagates :
    analyze_message (some (Except.error "timeout")) "hello" = Except.error "timeout" ∧
    analyze_message (some (Except.error "timeout")) "hello" ≠
      Except.ok (heuristicResult "hello") :=
  ⟨rfl, by simp [analyze_message]⟩

/-- Amended claim C9: only when no Groq client is configured does
`analyze_message` return the keyword heuristic — negative-keyword hit gives
`(0.2, 0.6, 1.1, "negative")`, otherwise `(0.6, 0.1, 0.9,
"neutral-positive")`.  With a client, a failure of the completion or of the
JSON parse propagates out of `analyze_message` (and `main.chat` does not
catch it), and a successful parse is returned with per-key defaults. -/
theorem analyzer_fallback_only_without_client (message e : String) (p : AnalyzerJson) :
    analyze_message none message = Except.ok (heuristicResult message) ∧
    heuristicResult message =
      (if negKeywordHit message then
        { S := 0.2, D := 0.6, C := 1.1, user_emotion := "negative" }
      else
        { S := 0.6, D := 0.1, C := 0.9, user_emotion := "neutral-positive" }) ∧
    analyze_message (some (Except.error e)) message = Except.error e ∧
    analyze_message (some (Except.ok p)) message =
      Except.ok
        { S := p.S.getD 0.5, D := p.D.getD 0.2, C := p.C.getD 1.0,
          user_emotion := p.user_emotion.getD "neutral" } :=
  ⟨rfl, rfl, rfl, rfl⟩

/-- Claim C10: in the chat pipeline the user-emotion tracker's inner engine
is always advanced with `delta_t = 1.0` (the `record_turn` default), for
every turn and any wall-clock times, while the elapsed-time-scaled
`delta_t` is passed only to the session engine's `process_turn`. -/
theorem tracker_engine_ignores_elapsed_time (st : ChatSessionSlice)
    (now_ts now_ts' : ℝ) (lt' : Option ℝ) (analysis : AnalyzerResult) (message : String) :
    (chat_evc_step st now_ts analysis message).1.tracker =
      st.tracker.record_turn (clampF analysis.S 0 1) (clampF analysis.D 0 1)
        (clampF analysis.C 0.5 1.5) analysis.user_emotion 1.0 (message.take 60) ∧
    (chat_evc_step st now_ts analysis message).1.tracker.engine =
      (st.tracker.engine.process_turn (clampF analysis.S 0 1) (clampF analysis.D 0 1)
        (clampF analysis.C 0.5 1.5) 1.0 ((message.take 60).take 60)).1 ∧
    (chat_evc_step st now_ts analysis message).1.tracker =
      (chat_evc_step { st with last_turn_ts := lt' } now_ts' analysis message).1.tracker ∧
    (chat_evc_step st now_ts analysis message).1.engine =
      (st.engine.process_turn (clampF analysis.S 0 1) (clampF analysis.D 0 1)
        (clampF analysis.C 0.5 1.5) (compute_delta_t_turns st.last_turn_ts now_ts).1
        message).1 :=
  ⟨rfl, rfl, rfl, rfl⟩

/-- Counterexample to claim C8: with 7 records the code's older window is
`history[-15:-5]` — here the first 2 records — never `history[:5]`.  On
`trendHistory7` the code reports "improving" (recent positivity 0.4 vs
older 0), while the claimed `history[:5]` window would give difference 0,
i.e. "stable". -/
theorem trend_older_window_differs_from_claim :
    trendTracker7.get_trend = TREND_IMPROVING ∧
    getTrendClaim trendTracker7 = TREND_STABLE ∧
    TREND_IMPROVING ≠ TREND_STABLE := by
  refine ⟨?_, ?_, by decide⟩
  · norm_num [UserEmotionTracker.get_trend, trendTracker7, trendHistory7, mkSignalRecord,
      sliceOlder, avgField, RECENT_WINDOW, OLDER_WINDOW, TREND_THRESHOLD,
      TREND_IMPROVING, TREND_INSUFFICIENT, ne_eq, List.cons_ne_nil]
  · norm_num [getTrendClaim, trendTracker7, trendHistory7, mkSignalRecord,
      sliceOlder, avgField, RECENT_WINDOW, OLDER_WINDOW, TREND_THRESHOLD,
      TREND_STABLE, TREND_INSUFFICIENT, ne_eq, List.cons_ne_nil]

/-- Amended claim C8: the trend requires at least `RECENT_WINDOW + 2 = 7`
records (otherwise "insufficient data"); with enough records it compares
`P = avg(S) - avg(D)` over the last 5 records against the same average over
`history[-15:-5]` — always, the `history[:5]` fallback branch being dead
code since the guard forces `len > 5` — reporting "improving" exactly when
the difference exceeds 0.12, "worsening" exactly when it is below −0.12,
and "stable" otherwise. -/
theorem trend_thresholds_and_windows (t : UserEmotionTracker) :
    (t.history.length < 7 → t.get_trend = TREND_INSUFFICIENT) ∧
    (7 ≤ t.history.length →
      t.get_trend =
        (let recent := t.history.drop (t.history.length - 5)
         let older := (t.history.take (t.history.length - 5)).drop (t.history.length - 15)
         let diff := (avgField recent (·.S) - avgField recent (·.D))
           - (avgField older (·.S) - avgField older (·.D))
         if (0.12 : ℝ) < diff then TREND_IMPROVING
         else if diff < -(0.12 : ℝ) then TREND_WORSENING
         else TREND_STABLE)) := by
  constructor
  · intro h
    have h' : t.history.length < RECENT_WINDOW + 2 := h
    simp only [UserEmotionTracker.get_trend, if_pos h']
  · intro h
    have hnot : ¬ t.history.length < 5 + 2 := by omega
    have hgt : 5 < t.history.length := by omega
    have h1 : (List.take (t.history.length - 5) t.history).length =
        t.history.length - 5 := by
      rw [List.length_take]
      exact Nat.min_eq_left (Nat.sub_le _ _)
    have h2 : (List.drop (t.history.length - 15)
        (List.take (t.history.length - 5) t.history)).length =
        t.history.length - 5 - (t.history.length - 15) := by
      rw [List.length_drop, h1]
    have holder : List.drop (t.history.length - 15)
        (List.take (t.history.length - 5) t.history) ≠ [] := by
      refine List.length_pos.mp ?_
      rw [h2]
      omega
    simp only [UserEmotionTracker.get_trend, sliceOlder, RECENT_WINDOW, OLDER_WINDOW,
      TREND_THRESHOLD, if_neg hnot, if_pos hgt, if_neg holder]

/-- Witness for the amended C8 at the concrete seven-record history. -/
theorem trend_thresholds_and_windows_witness :
    trendTracker7.get_trend =
      (let recent := trendTracker7.history.drop (trendTracker7.history.length - 5)
       let older := (trendTracker7.history.take (trendTracker7.history.length - 5)).drop
         (trendTracker7.history.length - 15)
       let diff := (avgField recent (·.S) - avgField recent (·.D))
         - (avgField older (·.S) - avgField older (·.D))
       if (0.12 : ℝ) < diff then TREND_IMPROVING
       else if diff < -(0.12 : ℝ) then TREND_WORSENING
       else TREND_STABLE) :=
  (trend_thresholds_and_windows trendTracker7).2 (le_refl 7)

theorem lexAsc_le (E : Vec8) {i j : Fin 8} (h : lexAsc E i j) : E i ≤ E j := by
  rcases h with h | ⟨h, _⟩
  · exact le_of_lt h
  · exact le_of_eq h

theorem sorted_orderedInsert_lex (E : Vec8) (a : Fin 8) :
    ∀ (l : List (Fin 8)), List.Sorted (lexAsc E) l → (∀ b ∈ l, a < b) →
      List.Sorted (lexAsc E) (List.orderedInsert (fun i j => E i ≤ E j) a l)
  | [], _, _ => by simp [List.orderedInsert]
  | b :: t, hs, hlt => by
    rw [List.orderedInsert]
    obtain ⟨hb, ht⟩ := List.sorted_cons.mp hs
    by_cases h : E a ≤ E b
    · rw [if_pos h]
      rw [List.sorted_cons]
      refine ⟨?_, hs⟩
      intro c hc
      have hac : a < c := hlt c hc
      have hEc : E a ≤ E c := by
        rcases List.mem_cons.mp hc with rfl | hct
        · exact h
        · exact h.trans (lexAsc_le E (hb c hct))
      rcases lt_or_eq_of_le hEc with h' | h'
      · exact Or.inl h'
      · exact Or.inr ⟨h', hac⟩
    · rw [if_neg h]
      have hba : E b < E a := not_le.mp h
      rw [List.sorted_cons]
      refine ⟨?_, sorted_orderedInsert_lex E a t ht
        (fun x hx => hlt x (List.mem_cons_of_mem b hx))⟩
      intro c hc
      have hc' : c ∈ a :: t :=
        (List.perm_orderedInsert (fun i j => E i ≤ E j) a t).mem_iff.mp hc
      rcases List.mem_cons.mp hc' with rfl | hct
      · exact Or.inl hba
      · exact hb c hct

theorem sorted_insertionSort_lex (E : Vec8) :
    ∀ (l : List (Fin 8)), l.Pairwise (· < ·) →
      List.Sorted (lexAsc E) (List.insertionSort (fun i j => E i ≤ E j) l)
  | [], _ => by simp [List.insertionSort]
  | a :: t, hp => by
    rw [List.insertionSort]
    obtain ⟨ha, ht⟩ := List.pairwise_cons.mp hp
    refine sorted_orderedInsert_lex E a _ (sorted_insertionSort_lex E t ht) ?_
    intro b hb
    exact ha b ((List.perm_insertionSort (fun i j => E i ≤ E j) t).mem_iff.mp hb)

theorem argsortAsc_sorted (E : Vec8) : List.Sorted (lexAsc E) (argsortAsc E) :=
  sorted_insertionSort_lex E [0, 1, 2, 3, 4, 5, 6, 7] (by decide)

/-- Full specification of the `np.argmax` left fold: starting from `best`
and scanning an index list that is strictly increasing and bounded below by
`best`, the fold returns an index carrying the maximum value, and among
equal maxima the smallest index. -/
theorem argmax_fold_spec (E : Vec8) :
    ∀ (l : List (Fin 8)) (b : Fin 8), l.Pairwise (· < ·) → (∀ x ∈ l, b ≤ x) →
      (E b ≤ E (l.foldl (fun best i => if E best < E i then i else best) b)) ∧
      (∀ x ∈ l, E x ≤ E (l.foldl (fun best i => if E best < E i then i else best) b)) ∧
      ((l.foldl (fun best i => if E best < E i then i else best) b) = b ∨
        E b < E (l.foldl (fun best i => if E best < E i then i else best) b)) ∧
      (∀ x ∈ l, E x = E (l.foldl (fun best i => if E best < E i then i else best) b) →
        (l.foldl (fun best i => if E best < E i then i else best) b) ≤ x) ∧
      (E (l.foldl (fun best i => if E best < E i then i else best) b) = E b →
        (l.foldl (fun best i => if E best < E i then i else best) b) = b)
  | [], b, _, _ => by
    simp
  | a :: t, b, hp, hb => by
    obtain ⟨ha, ht⟩ := List.pairwise_cons.mp hp
    by_cases h : E b < E a
    · simp only [List.foldl_cons, if_pos h]
      obtain ⟨ih1, ih2, ih3, ih4, ih5⟩ :=
        argmax_fold_spec E t a ht (fun x hx => le_of_lt (ha x hx))
      refine ⟨le_of_lt (lt_of_lt_of_le h ih1), ?_, ?_, ?_, ?_⟩
      · intro x hx
        rcases List.mem_cons.mp hx with rfl | hxt
        · exact ih1
        · exact ih2 x hxt
      · rcases ih3 with heq | hlt
        · exact Or.inr (by rw [heq]; exact h)
        · exact Or.inr (h.trans hlt)
      · intro x hx hEx
        rcases List.mem_cons.mp hx with rfl | hxt
        · rw [ih5 hEx.symm]
        · exact ih4 x hxt hEx
      · intro hEq
        have : E b < E b := by
          calc E b < E a := h
            _ ≤ E (t.foldl (fun best i => if E best < E i then i else best) a) := ih1
            _ = E b := hEq
        exact absurd this (lt_irrefl _)
    · simp only [List.foldl_cons, if_neg h]
      have hab : E a ≤ E b := not_lt.mp h
      obtain ⟨ih1, ih2, ih3, ih4, ih5⟩ :=
        argmax_fold_spec E t b ht (fun x hx => hb x (List.mem_cons_of_mem a hx))
      refine ⟨ih1, ?_, ih3, ?_, ih5⟩
      · intro x hx
        rcases List.mem_cons.mp hx with rfl | hxt
        · exact hab.trans ih1
        · exact ih2 x hxt
      · intro x hx hEx
        rcases List.mem_cons.mp hx with rfl | hxt
        · have hRb : E (t.foldl (fun best i => if E best < E i then i else best) b) = E b :=
            le_antisymm (by rw [← hEx]; exact hab) ih1
          rw [ih5 hRb]
          exact hb x hx
        · exact ih4 x hxt hEx

/-- Counterexample to claim C7: on the uniform emotion vector every score is
tied.  `get_top_n(3)` returns indices 7, 6, 5 — `Surprise, Anger, Fear` —
because `np.argsort(E)[::-1]` reverses a stable ascending sort, putting the
*highest* index first among ties; `get_dominant` picks the lowest index,
`Joy`.  The claimed lowest-index tie-breaking in `get_top_n` would have put
`Joy` first, consistent with `get_dominant`; the code disagrees. -/
theorem top_n_tie_order_contradicts_claim :
    (uniformMapper.get_top_n 3).map Prod.fst = ["Surprise", "Anger", "Fear"] ∧
    uniformMapper.get_dominant.1 = "Joy" ∧
    ("Surprise" : String) ≠ "Joy" := by
  refine ⟨?_, ?_, by decide⟩
  · norm_num [EmotionMapper.get_top_n, topIndices, argsortAsc, uniformMapper,
      List.insertionSort, List.orderedInsert, EMOTION_NAMES]
  · norm_num [EmotionMapper.get_dominant, argmax8, uniformMapper, List.finRange,
      EMOTION_NAMES]

/-- Amended claim C7: `get_top_n(n)` returns the n largest entries sorted
descending by score, but ties are broken by *highest* index first (the
reverse of the stable ascending argsort), not lowest; `get_dominant`
returns the maximum with *lowest*-index tie-breaking, so the two disagree
on ties. -/
theorem top_n_ties_prefer_higher_index (E : Vec8) (n : ℕ) :
    List.Sorted (fun i j : Fin 8 => E j < E i ∨ (E j = E i ∧ j < i)) (topIndices E n) ∧
    (∀ i, E i ≤ E (argmax8 E)) ∧
    (∀ i, E (argmax8 E) ≤ E i → argmax8 E ≤ i) ∧
    (∀ em : EmotionMapper, em.get_top_n n =
      (topIndices em.emotions_normalized n).map
        (fun i => (EMOTION_NAMES i, roundPy (em.emotions_normalized i) 4))) ∧
    (∀ em : EmotionMapper, em.get_dominant =
      (EMOTION_NAMES (argmax8 em.emotions_normalized),
        em.emotions_normalized (argmax8 em.emotions_normalized))) := by
  have hspec := argmax_fold_spec E (List.finRange 8) 0
    (List.pairwise_lt_finRange 8) (fun x _ => Fin.zero_le x)
  refine ⟨?_, ?_, ?_, fun _ => rfl, fun _ => rfl⟩
  · have hs : (argsortAsc E).reverse.Pairwise
        (fun i j : Fin 8 => E j < E i ∨ (E j = E i ∧ j < i)) := by
      rw [List.pairwise_reverse]
      exact argsortAsc_sorted E
    exact hs.sublist (List.take_sublist n _)
  · intro i
    exact hspec.2.1 i (List.mem_finRange i)
  · intro i h
    have hle : E i ≤ E (argmax8 E) := hspec.2.1 i (List.mem_finRange i)
    exact hspec.2.2.2.1 i (List.mem_finRange i) (le_antisymm hle h)

/-- Witness for the amended C7 at the uniform emotion vector. -/
theorem top_n_ties_prefer_higher_index_witness :
    argmax8 uniformMapper.emotions_normalized ≤ 3 ∧
    List.Sorted
      (fun i j : Fin 8 => uniformMapper.emotions_normalized j <
          uniformMapper.emotions_normalized i ∨
        (uniformMapper.emotions_normalized j = uniformMapper.emotions_normalized i ∧ j < i))
      (topIndices uniformMapper.emotions_normalized 3) :=
  ⟨(top_n_ties_prefer_higher_index uniformMapper.emotions_normalized 3).2.2.1 3 (le_refl _),
   (top_n_ties_prefer_higher_index uniformMapper.emotions_normalized 3).1⟩

end

end NDLP
